import Mathlib

/-!
Shallow embedding of `src/core/_common.py` (class `CommonFunction`) from the
qlik-py-tools repository, together with theorems checking the specification's
claims about it.

The embedding keeps the source's structure: `set_params` / `initiate` model
`CommonFunction._set_params` / `CommonFunction._initiate`, `association_rules_response`
and `association_rules_call` model `CommonFunction.association_rules`, `predict`
models `CommonFunction.predict` with `load_script=True`, and `add_model_path`
models `CommonFunction._add_model_path`.  External collaborators (the apriori
library, the filesystem holding YAML model descriptors, the loaded model
objects) appear as oracle parameters.  The helper module `_utils.py` is not part
of `src/`, so its functions (`get_kwargs`, `get_kwargs_by_type`, `convert_types`)
are modelled from the specification and are marked as such.

Python string primitives are re-implemented over `List Char` so that every
definition evaluates inside the kernel.
-/

/-- Model of Python `str.lower` (only needed for case-insensitive literals). -/
def lowerStr (s : String) : String := String.mk (s.data.map Char.toLower)

/-- Split a character list on a separator, Python `str.split(sep)` semantics:
the result always has one more entry than the number of separators, and an
empty input yields one empty field. -/
def charSplit (sep : Char) : List Char → List (List Char)
  | [] => [[]]
  | c :: cs =>
    let rest := charSplit sep cs
    if c = sep then [] :: rest
    else
      match rest with
      | [] => [[c]]
      | r :: rs => (c :: r) :: rs

/-- Model of Python `str.split(sep)` for a one-character separator. -/
def pySplit (sep : Char) (s : String) : List String :=
  (charSplit sep s.data).map String.mk

/-- Value of a decimal digit character. -/
def digitVal? (c : Char) : Option Nat :=
  if '0' ≤ c ∧ c ≤ '9' then some (c.toNat - '0'.toNat) else none

/-- Accumulate the value of a digit string; `none` as soon as a non-digit is hit. -/
def digitsValAux : Option Nat → List Char → Option Nat
  | acc, [] => acc
  | acc, c :: cs =>
    match acc, digitVal? c with
    | some n, some d => digitsValAux (some (n * 10 + d)) cs
    | _, _ => none

/-- Model of Python `int(s)` for plain decimal literals. -/
def pyToInt? (s : String) : Option Int :=
  match s.data with
  | [] => none
  | '-' :: cs =>
    match cs with
    | [] => none
    | _ => (digitsValAux (some 0) cs).map (fun n => -(n : Int))
  | cs => (digitsValAux (some 0) cs).map (fun n => (n : Int))

/-! ### Parameter parsing (`CommonFunction._set_params`, source lines 204-246) -/

/-- A typed parameter value.  The float payload is kept in its literal string
form: no claim depends on float arithmetic, and floating point is outside the
embedding. -/
inductive PyVal
  | str (s : String)
  | int (n : Int)
  | float (raw : String)
  | bool (b : Bool)
deriving DecidableEq

/-- The raw key-value mapping produced by splitting the argument string. -/
abbrev Kwargs := List (String × String)

/-- Ordered-dictionary lookup (first matching key; `dictInsert` keeps keys unique). -/
def lookupKV {α : Type} : List (String × α) → String → Option α
  | [], _ => none
  | (k, v) :: rest, key => if k = key then some v else lookupKV rest key

/-- Ordered-dictionary insert with Python `dict` semantics: an existing key keeps
its position but takes the new value, a new key is appended. -/
def dictInsert (kvs : Kwargs) (k v : String) : Kwargs :=
  if (kvs.map Prod.fst).contains k then
    kvs.map (fun p => if p.1 = k then (k, v) else p)
  else kvs ++ [(k, v)]

/-- Modelled from the spec: the item loop of `utils.get_kwargs` (file `_utils.py`,
absent from `src/`).  Spec section 4.2: `raw := item (ITEM_SEP item)*`,
`item := key EQ value (TYPE_SEP typetag)?`; a malformed token is a parse failure. -/
def get_kwargs_list : Kwargs → List String → Except String Kwargs
  | acc, [] => .ok acc
  | acc, item :: rest =>
    match pySplit '=' item with
    | [k, v] => get_kwargs_list (dictInsert acc k v) rest
    | _ => .error ("ParseError: malformed parameter token: " ++ item)

/-- Modelled from the spec: `utils.get_kwargs` (file `_utils.py`, absent from
`src/`).  Splits the raw argument string on the item separator `,` and each item
on `=`, building an insertion-ordered key-value mapping. -/
def get_kwargs (raw : String) : Except String Kwargs :=
  get_kwargs_list [] (pySplit ',' raw)

/-- Modelled from the spec: the per-value coercion of `utils.get_kwargs_by_type`
(file `_utils.py`, absent from `src/`).  Spec sections 3 and 4.2: the `|typetag`
suffix determines coercion, no tag keeps the value a string, recognized tags are
at least `int`, `float`, `bool`, `str`; `bool` accepts case-insensitive
true/false literals only; unknown tags and failed coercions are parse failures
naming the offending token. -/
def coerceTagged (k v : String) : Except String (String × PyVal) :=
  match pySplit '|' v with
  | [s] => .ok (k, .str s)
  | [s, t] =>
    if t = "str" then .ok (k, .str s)
    else if t = "int" then
      match pyToInt? s with
      | some n => .ok (k, .int n)
      | none => .error ("TypeCoercionError: cannot cast " ++ s ++ " to int")
    else if t = "float" then .ok (k, .float s)
    else if t = "bool" then
      if lowerStr s = "true" then .ok (k, .bool true)
      else if lowerStr s = "false" then .ok (k, .bool false)
      else .error ("ParseError: invalid bool literal: " ++ s)
    else .error ("ParseError: unknown type tag: " ++ t)
  | _ => .error ("ParseError: malformed parameter value: " ++ v)

/-- Modelled from the spec: `utils.get_kwargs_by_type` (file `_utils.py`, absent
from `src/`): coerce every remaining parameter according to its type tag,
keeping the mapping's order. -/
def get_kwargs_by_type : Kwargs → Except String (List (String × PyVal))
  | [] => .ok []
  | (k, v) :: rest =>
    match coerceTagged k v with
    | .error e => .error e
    | .ok kv =>
      match get_kwargs_by_type rest with
      | .error e => .error e
      | .ok tl => .ok (kv :: tl)

/-- Execution-parameter state set up by `_set_params`.  `passOnKwargs = none`
models the Python attribute `self.pass_on_kwargs` never having been assigned
(reading it then raises AttributeError); `some kw` models the assigned value. -/
structure ParamsState where
  debug : Bool
  passOnKwargs : Option (List (String × PyVal))
deriving DecidableEq

/-- Embedding of `CommonFunction._set_params` after `utils.get_kwargs` has run
(source lines 224-239): the reserved `debug` key is read case-insensitively
(`'true' == kwargs.pop('debug').lower()`), popped from the mapping, and the
rest is passed through `get_kwargs_by_type`. -/
def set_params_from_kwargs (kvs : Kwargs) : Except String ParamsState :=
  let debug :=
    match lookupKV kvs "debug" with
    | some v => lowerStr v == "true"
    | none => false
  match get_kwargs_by_type (kvs.filter (fun p => p.1 != "debug")) with
  | .error e => .error e
  | .ok passOn => .ok ⟨debug, some passOn⟩

/-- Embedding of `CommonFunction._set_params` (source lines 204-246).  The
defaults section sets only `self.debug = False`; `self.pass_on_kwargs` is
assigned only inside the `if len(kwargs) > 0` branch, so an empty argument
string leaves it unassigned (`none`). -/
def set_params (kwargs : String) : Except String ParamsState :=
  if 0 < kwargs.length then
    match get_kwargs kwargs with
    | .error e => .error e
    | .ok kvs => set_params_from_kwargs kvs
  else .ok ⟨false, none⟩

/-! ### Request interpretation (`CommonFunction._initiate`, source lines 184-202) -/

/-- Index of a column header (`List.indexOf` with propositional equality). -/
def colIdx : List String → String → Nat
  | [], _ => 0
  | h :: hs, name => if h = name then 0 else colIdx hs name + 1

/-- Drop column `i` from every row (pandas `drop(axis=1)` by position). -/
def dropCol (i : Nat) (rows : List (List String)) : List (List String) :=
  rows.map (fun r => r.eraseIdx i)

/-- The `kwargs` cell of the first request row (`request_df.loc[0, 'kwargs']`,
source line 196). -/
def kwargsCell (headers : List String) (rows : List (List String)) : String :=
  (rows.headD []).getD (colIdx headers "kwargs") ""

/-- Result of `_initiate`: the execution parameters plus the request table with
its `kwargs` column removed. -/
structure InitResult where
  params : ParamsState
  headers : List String
  table : List (List String)
deriving DecidableEq

/-- Embedding of `CommonFunction._initiate` (source lines 184-202) over a generic
row-major table with a separate header list: the argument string is taken from
the `kwargs` cell of the first row only, and `_set_params` ends by dropping the
`kwargs` column from the request table (source line 246) before the caller goes
on to load models or mine rules. -/
def initiate (headers : List String) (rows : List (List String)) :
    Except String InitResult :=
  match set_params (kwargsCell headers rows) with
  | .error e => .error e
  | .ok ps =>
    .ok ⟨ps, headers.eraseIdx (colIdx headers "kwargs"),
         dropCol (colIdx headers "kwargs") rows⟩

/-! ### Association rules (`CommonFunction.association_rules`, source lines 57-100) -/

/-- A rule emitted by the external apriori library: left/right hand sides plus
support, confidence and lift (modelled as rationals; the library computes
ratios of counts). -/
structure Rule where
  lhs : List String
  rhs : List String
  support : ℚ
  confidence : ℚ
  lift : ℚ
deriving DecidableEq

/-- The ordering used by `sorted(rules, key=lambda rule: rule.lift, reverse=True)`:
`a` may come before `b` when `b.lift ≤ a.lift`. -/
def liftGE (a b : Rule) : Prop := b.lift ≤ a.lift

instance : DecidableRel liftGE :=
  fun a b => inferInstanceAs (Decidable (b.lift ≤ a.lift))

instance : IsTotal Rule liftGE := ⟨fun a b => le_total b.lift a.lift⟩

instance : IsTrans Rule liftGE := ⟨fun _ _ _ hab hbc => le_trans hbc hab⟩

/-- One row of the apriori response table:
`(rule, rule_lhs, rule_rhs, support, confidence, lift)`. -/
abbrev ARow := String × String × String × ℚ × ℚ × ℚ

/-- Embedding of the row formatting in the response loop (source lines 80-83). -/
def formatRule (r : Rule) : ARow :=
  let lhs := String.intercalate ", " r.lhs
  let rhs := String.intercalate ", " r.rhs
  (lhs ++ " -> " ++ rhs, lhs, rhs, r.support, r.confidence, r.lift)

/-- The error message raised when no rules were found (source lines 87-88). -/
def noRulesMsg : String :=
  "No association rules could be found. You may get results by lowering the limits imposed by the min_support and min_confidence parameters.\ne.g. by passing min_support=0.2|float in the arguments."

/-- Embedding of the response-building part of `CommonFunction.association_rules`
(source lines 75-91): rank the rules by lift descending — Python `sorted` is a
stable sort and `reverse=True` keeps equal-key elements in emission order, which
is exactly `List.insertionSort liftGE` — format each rule, and raise when the
response is empty. -/
def association_rules_response (rules : List Rule) : Except String (List ARow) :=
  let response := (List.insertionSort liftGE rules).map formatRule
  if response.length = 0 then .error noRulesMsg else .ok response

/-- Distinct group values in first-seen order (`pandas.Series.unique`). -/
def uniqueFirstSeen (l : List String) : List String :=
  l.foldl (fun acc g => if g ∈ acc then acc else acc ++ [g]) []

/-- One request row of the `association_rules` variant (columns
`group`, `item`, `kwargs`, source line 63). -/
structure AssocRow where
  group : String
  item : String
  kwargs : String
deriving DecidableEq

/-- Embedding of the transaction grouping (source lines 66-70): for each distinct
group in first-seen order, the items of that group in row order. -/
def transactionsOf (rows : List AssocRow) : List (List String) :=
  (uniqueFirstSeen (rows.map AssocRow.group)).map
    (fun g => (rows.filter (fun r => r.group == g)).map AssocRow.item)

/-- The AttributeError raised when `self.pass_on_kwargs` is read without ever
having been assigned. -/
def passOnAttrErr : String :=
  "AttributeError: 'CommonFunction' object has no attribute 'pass_on_kwargs'"

/-- Embedding of `CommonFunction.association_rules` (source lines 57-100), with
the external apriori algorithm as an oracle taking the transactions and the
pass-through kwargs (`apriori(transactions, **self.pass_on_kwargs)`, source
line 73).  Reading `self.pass_on_kwargs` when `_set_params` never assigned it
raises AttributeError. -/
def association_rules_call
    (apriori : List (List String) → List (String × PyVal) → List Rule)
    (request : List AssocRow) : Except String (List ARow) :=
  match set_params ((request.headD ⟨"", "", ""⟩).kwargs) with
  | .error e => .error e
  | .ok ps =>
    match ps.passOnKwargs with
    | none => .error passOnAttrErr
    | some passOn =>
      association_rules_response (apriori (transactionsOf request) passOn)

/-! ### Prediction (`CommonFunction.predict` with `load_script=True`,
source lines 102-182) -/

/-- The error taxonomy surfaced by the predict pipeline. -/
inductive PredictError
  | attributeError (msg : String)
  | fileNotFound (msg : String)
  | assertionError (msg : String)
  | valueError (msg : String)
  | typeError (msg : String)
  | typeCoercion (msg : String)
  | paramError (msg : String)
deriving DecidableEq

/-- The feature-arity message of source line 143. -/
def featureArityMsg : String :=
  "The number of input columns do not match feature definitions. Ensure you are using the | delimiter and that the target is not included in your input to the prediction function."

/-- A NumPy prediction output: one-dimensional, or two-dimensional with the
given column count (`shape[1]`); entries are kept in their `str()` form. -/
inductive NpArray
  | one (vals : List String)
  | two (ncols : Nat) (rows : List (List String))
deriving DecidableEq

/-- The pandas ValueError raised when a 2-d array is forced into the one-column
frame `pd.DataFrame(y, columns=["result"])` (the real message also prints the
offending shape). -/
def dfShapeErrMsg : String :=
  "ValueError: Shape of passed values does not match the single result column implied by the index"

/-- Embedding of the output reshaping of `CommonFunction.predict` (source lines
156-161): a 2-d output with exactly two columns is pipe-joined into one string
per row; otherwise the raw output is placed into a one-column DataFrame, which
succeeds for a 1-d output or a 2-d output with exactly one column and raises a
ValueError for any wider 2-d output. -/
def reshapeOutput : NpArray → Except PredictError (List String)
  | .one vals => .ok vals
  | .two ncols rows =>
    if ncols = 2 then .ok (rows.map (String.intercalate "|"))
    else if ncols = 1 then .ok (rows.map (fun r => r.headD ""))
    else .error (.valueError dfShapeErrMsg)

/-- Length of the longest row. -/
def maxLen (rows : List (List String)) : Nat :=
  rows.foldr (fun r m => max r.length m) 0

/-- A feature matrix; `none` models a NaN cell produced by pandas padding. -/
abbrev FeatureMatrix := List (List (Option String))

/-- Embedding of the feature-frame construction of `CommonFunction.predict`
(source lines 137-144) together with the pandas semantics of
`pd.DataFrame(list_of_lists, columns=...)` that it relies on: pandas pads
ragged rows with NaN up to the longest row, and raises
`AssertionError: N columns passed, passed data had M columns` exactly when that
maximum width differs from the number of column labels; the source catches the
AssertionError and re-raises it with the feature-arity message. -/
def buildFeatureFrame (splitRows : List (List String)) (ncols : Nat) :
    Except PredictError FeatureMatrix :=
  if splitRows.isEmpty then .ok []
  else if maxLen splitRows ≠ ncols then .error (.assertionError featureArityMsg)
  else .ok (splitRows.map (fun r => (List.range ncols).map r.get?))

/-- Check of one cell against its declared feature type. -/
def cellOk (ty : String) (v : Option String) : Bool :=
  match v with
  | none => true
  | some s => if ty = "int" then (pyToInt? s).isSome else true

/-- Modelled from the spec: `utils.convert_types` (file `_utils.py`, absent from
`src/`).  Spec section 4.4: casts each column to the type declared in the
feature schema; a casting failure is a TypeCoercionError.  Values are kept in
string form; int-typed columns are checked to parse and other declared types
pass through (exact numeric semantics are outside the embedding). -/
def convert_types (X : FeatureMatrix) (types : List String) :
    Except PredictError FeatureMatrix :=
  if X.all (fun row => (types.zip row).all (fun p => cellOk p.1 p.2)) then .ok X
  else .error (.typeCoercion "TypeCoercionError: could not cast value to declared feature type")

/-- A loaded model: its callable attributes, looked up by `getattr`. -/
structure LoadedModel where
  methods : List (String × (FeatureMatrix → NpArray))

/-- The contents of a model's YAML descriptor plus the artifacts it points to
(`_get_model`, source lines 248-312). -/
structure ModelMeta where
  modelType : String
  features : List (String × String)
  preprocessor : Option (FeatureMatrix → Except PredictError FeatureMatrix)
  model : LoadedModel

/-- The supported model types (source line 282). -/
def supportedTypes : List String := ["sklearn", "scikit-learn", "keras"]

/-- The FileNotFoundError message of source line 275. -/
def modelNotFoundMsg : String :=
  "Model definition file not found. A YAML file with the model path, type and features needs to be placed in ../models/"

/-- Embedding of `CommonFunction._get_model` (source lines 248-312): the
filesystem is the oracle `env` mapping a model name to its YAML metadata and
deserialized artifacts; a missing descriptor raises FileNotFoundError and an
unsupported model type fails the assertion on line 283. -/
def get_model (env : String → Option ModelMeta) (model_name : String) :
    Except PredictError ModelMeta :=
  match env model_name with
  | none => .error (.fileNotFound modelNotFoundMsg)
  | some meta =>
    if lowerStr meta.modelType ∈ supportedTypes then .ok meta
    else .error (.assertionError ("Unsupported model type: " ++ meta.modelType))

/-- One raw request row of the load-script predict variant (columns
`model_name`, `key`, `n_features`, `kwargs`, source lines 116-117; the
`n_features` column carries the pipe-delimited feature string). -/
structure ScriptRequestRow where
  model_name : String
  key : String
  n_features : String
  kwargs : String
deriving DecidableEq

/-- A predict request row after `_initiate` dropped the `kwargs` column. -/
structure PredictRow where
  model_name : String
  key : String
  n_features : String
deriving DecidableEq

/-- One row of the keyed response table (after `n_features` is dropped). -/
structure ScriptResponseRow where
  model_name : String
  key : String
  result : String
deriving DecidableEq

/-- Dropping the `kwargs` column from a predict request row. -/
def dropKwargsRow (r : ScriptRequestRow) : PredictRow :=
  ⟨r.model_name, r.key, r.n_features⟩

/-- pandas left join on the index (here the key column, set on source line 135):
for each left row in order, one output row per right row carrying an equal
index value, in right order. -/
def joinOnKey : List PredictRow → List (String × String) → List (PredictRow × String)
  | [], _ => []
  | r :: rs, resp =>
    ((resp.filter (fun p => p.1 == r.key)).map (fun p => (r, p.2)))
      ++ joinOnKey rs resp

/-- Embedding of source line 165:
`self.request_df.join(self.response_df).drop(['n_features'], axis=1)`, where
`response_df` holds the result column indexed by the keys in request order. -/
def scriptResponse (rows : List PredictRow) (results : List String) :
    List ScriptResponseRow :=
  (joinOnKey rows ((rows.map PredictRow.key).zip results)).map
    (fun p => ⟨p.1.model_name, p.1.key, p.2⟩)

/-- The column labels of the joined keyed response after the drop on line 165. -/
def scriptResponseColumns : List String :=
  (["model_name", "key", "n_features"] ++ ["result"]).erase "n_features"

/-- Applying the optional preprocessor (source lines 150-151). -/
def applyPrep (prep : Option (FeatureMatrix → Except PredictError FeatureMatrix))
    (X : FeatureMatrix) : Except PredictError FeatureMatrix :=
  match prep with
  | none => .ok X
  | some f => f X

/-- The observable outcome of one predict call: the returned table or the raised
error, whether the model method was actually invoked, and whether the response
table description was sent to Qlik. -/
structure PredictOutcome where
  result : Except PredictError (List ScriptResponseRow)
  invokedModel : Bool
  sentTableDescription : Bool

/-- An error outcome raised before the model was invoked. -/
def errOutcome (e : PredictError) : PredictOutcome := ⟨.error e, false, false⟩

/-- Embedding of `CommonFunction.predict` with `load_script=True` (source lines
102-182), step by step: `_initiate` (params from the first row's `kwargs` cell,
`kwargs` column dropped), the `'return' in self.pass_on_kwargs` lookup (line
126, an AttributeError when the attribute was never assigned), `_get_model`
(line 130), the feature split into the schema's columns (lines 137-144), type
conversion (line 147), optional preprocessing (lines 150-151),
`getattr(self.model, prediction_func)(self.X)` (line 154), output reshaping
(lines 156-161) and the keyed join plus table description (lines 163-174). -/
def predict (env : String → Option ModelMeta) (request : List ScriptRequestRow) :
    PredictOutcome :=
  match set_params ((request.headD ⟨"", "", "", ""⟩).kwargs) with
  | .error e => errOutcome (.paramError e)
  | .ok ps =>
    let rows := request.map dropKwargsRow
    match ps.passOnKwargs with
    | none => errOutcome (.attributeError passOnAttrErr)
    | some passOn =>
      let predictionFunc : PyVal := (lookupKV passOn "return").getD (.str "predict")
      match get_model env ((rows.headD ⟨"", "", ""⟩).model_name) with
      | .error e => errOutcome e
      | .ok meta =>
        match buildFeatureFrame (rows.map (fun r => pySplit '|' r.n_features))
            meta.features.length with
        | .error e => errOutcome e
        | .ok X0 =>
          match convert_types X0 (meta.features.map Prod.snd) with
          | .error e => errOutcome e
          | .ok X1 =>
            match applyPrep meta.preprocessor X1 with
            | .error e => errOutcome e
            | .ok X2 =>
              match predictionFunc with
              | .str fname =>
                match lookupKV meta.model.methods fname with
                | none =>
                  errOutcome (.attributeError
                    ("'model' object has no attribute '" ++ fname ++ "'"))
                | some invoke =>
                  match reshapeOutput (invoke X2) with
                  | .error e => ⟨.error e, true, false⟩
                  | .ok results => ⟨.ok (scriptResponse rows results), true, true⟩
              | _ => errOutcome (.typeError "getattr(): attribute name must be string")

/-! ### Search-path mutation (`CommonFunction._add_model_path`, source lines 347-355) -/

/-- Characters of a path up to (excluding) its last `/`-separated component. -/
def dirnameChars : List Char → List Char
  | [] => []
  | c :: cs => if '/' ∈ cs then c :: dirnameChars cs else []

/-- Model of `os.path.dirname (os.path.abspath p)` for absolute, already
normalised paths with at least two components (`abspath` is the identity on
such paths; filesystem state is outside the embedding). -/
def dirname (p : String) : String := String.mk (dirnameChars p.data)

/-- Embedding of `CommonFunction._add_model_path` (source lines 347-355): append
the model's directory to `sys.path` unless it is already present. -/
def add_model_path (sysPath : List String) (model_path : String) : List String :=
  let modelDir := dirname model_path
  if modelDir ∈ sysPath then sysPath else sysPath ++ [modelDir]

/-! ### Claim theorems -/

/-- C1: For a call whose raw argument string is empty, `_set_params` itself
returns debug=false without error, but it never assigns `self.pass_on_kwargs`,
so the subsequent operation that consumes the pass-through parameter set
(`association_rules`, and likewise `predict` at its `'return' in
self.pass_on_kwargs` lookup) fails with an AttributeError attributable to the
empty argument string — contradicting the claim that it proceeds without
error. -/
theorem C1_empty_kwargs_breaks_consumer :
    set_params "" = .ok ⟨false, none⟩ ∧
    (∀ (apriori : List (List String) → List (String × PyVal) → List Rule)
      (request : List AssocRow), request ≠ [] →
      (request.headD ⟨"", "", ""⟩).kwargs = "" →
      association_rules_call apriori request = .error passOnAttrErr) := by
  refine ⟨rfl, ?_⟩
  intro apriori request _ hk
  unfold association_rules_call
  rw [hk]
  rfl

/-- C1 witness: the theorem applied to a one-row request whose argument string
is empty. -/
theorem C1_empty_kwargs_breaks_consumer_witness :
    (([⟨"g", "i", ""⟩] : List AssocRow) ≠ [] ∧
      (([⟨"g", "i", ""⟩] : List AssocRow).headD ⟨"", "", ""⟩).kwargs = "") ∧
    association_rules_call (fun _ _ => []) [⟨"g", "i", ""⟩] = .error passOnAttrErr :=
  ⟨⟨by simp, rfl⟩,
   C1_empty_kwargs_breaks_consumer.2 (fun _ _ => []) [⟨"g", "i", ""⟩] (by simp) rfl⟩

/-- C7: When the mining algorithm returns zero rules, `association_rules` fails
with the error suggesting lower min_support / min_confidence thresholds, and a
successful response table is never empty. -/
theorem C7_no_rules_is_error :
    association_rules_response [] =
      .error "No association rules could be found. You may get results by lowering the limits imposed by the min_support and min_confidence parameters.\ne.g. by passing min_support=0.2|float in the arguments." ∧
    (∀ (rules : List Rule) (resp : List ARow),
      association_rules_response rules = .ok resp → resp ≠ []) := by
  refine ⟨rfl, ?_⟩
  intro rules resp h
  unfold association_rules_response at h
  by_cases hl : ((List.insertionSort liftGE rules).map formatRule).length = 0
  · rw [if_pos hl] at h
    exact absurd h (by simp)
  · rw [if_neg hl] at h
    cases h
    exact fun hnil => hl (by simp [hnil])

/-- C7 witness: the theorem applied to a singleton rule list and its response. -/
theorem C7_no_rules_is_error_witness :
    association_rules_response [⟨["a"], ["b"], 1, 1, 1⟩] =
      .ok [("a -> b", "a", "b", 1, 1, 1)] ∧
    ([("a -> b", "a", "b", 1, 1, 1)] : List ARow) ≠ [] :=
  ⟨rfl, C7_no_rules_is_error.2 [⟨["a"], ["b"], 1, 1, 1⟩]
    [("a -> b", "a", "b", 1, 1, 1)] rfl⟩

/-- C8: `_add_model_path` appends the artifact's directory to the search path
only when it is not already present, never removes existing entries (the old
path is a prefix of the new one), and a repeated load of an artifact from the
same directory leaves the search path unchanged. -/
theorem C8_add_model_path_additive_idempotent
    (sysPath : List String) (p q : String) (hpq : dirname q = dirname p) :
    sysPath <+: add_model_path sysPath p ∧
    (dirname p ∈ sysPath → add_model_path sysPath p = sysPath) ∧
    (dirname p ∉ sysPath → add_model_path sysPath p = sysPath ++ [dirname p]) ∧
    add_model_path (add_model_path sysPath p) q = add_model_path sysPath p := by
  unfold add_model_path
  rw [hpq]
  by_cases hmem : dirname p ∈ sysPath
  · simp [hmem]
  · simp [hmem]

/-- C8 witness: the theorem applied to a concrete search path and two artifacts
sharing a directory. -/
theorem C8_add_model_path_additive_idempotent_witness :
    dirname "/srv/models/b.pkl" = dirname "/srv/models/a.pkl" ∧
    (["/usr/lib"] <+: add_model_path ["/usr/lib"] "/srv/models/a.pkl" ∧
     (dirname "/srv/models/a.pkl" ∈ ["/usr/lib"] →
       add_model_path ["/usr/lib"] "/srv/models/a.pkl" = ["/usr/lib"]) ∧
     (dirname "/srv/models/a.pkl" ∉ ["/usr/lib"] →
       add_model_path ["/usr/lib"] "/srv/models/a.pkl" =
         ["/usr/lib"] ++ [dirname "/srv/models/a.pkl"]) ∧
     add_model_path (add_model_path ["/usr/lib"] "/srv/models/a.pkl")
       "/srv/models/b.pkl" = add_model_path ["/usr/lib"] "/srv/models/a.pkl") :=
  ⟨by decide, C8_add_model_path_additive_idempotent ["/usr/lib"]
    "/srv/models/a.pkl" "/srv/models/b.pkl" (by decide)⟩

/-- C2 counterexample: a two-dimensional output with three columns is not used
unchanged as a single result column — building the one-column response frame
raises a ValueError, so the claim's "every other shape is used unchanged" is
false for 2-d outputs with more than two columns. -/
theorem C2_two_d_three_cols_counterexample :
    reshapeOutput (.two 3 [["1", "2", "3"]]) = .error (.valueError dfShapeErrMsg) := rfl

/-- C2 (amended): a 2-d output with exactly two columns is pipe-joined into one
string per row; a 1-d output, or a 2-d output with exactly one column, is used
unchanged as the single result column, one entry per request row; a 2-d output
with three or more columns raises a ValueError instead of being used. -/
theorem C2_output_reshaping (vals : List String) (rows rows1 : List (List String))
    (n : Nat) (hn : 3 ≤ n) :
    reshapeOutput (.one vals) = .ok vals ∧
    reshapeOutput (.two 2 rows) = .ok (rows.map (String.intercalate "|")) ∧
    reshapeOutput (.two 1 rows1) = .ok (rows1.map (fun r => r.headD "")) ∧
    (∀ rows2, reshapeOutput (.two n rows2) = .error (.valueError dfShapeErrMsg)) := by
  refine ⟨rfl, rfl, rfl, ?_⟩
  intro rows2
  simp only [reshapeOutput]
  rw [if_neg (by omega), if_neg (by omega)]

/-- C2 witness: the theorem applied to the spec's own example outputs. -/
theorem C2_output_reshaping_witness :
    3 ≤ 3 ∧
    (reshapeOutput (.one ["0.5"]) = .ok ["0.5"] ∧
     reshapeOutput (.two 2 [["0.2", "0.8"], ["0.9", "0.1"]]) = .ok ["0.2|0.8", "0.9|0.1"] ∧
     reshapeOutput (.two 1 [["7"]]) = .ok ["7"] ∧
     (∀ rows2, reshapeOutput (.two 3 rows2) = .error (.valueError dfShapeErrMsg))) :=
  ⟨by decide, C2_output_reshaping ["0.5"] [["0.2", "0.8"], ["0.9", "0.1"]] [["7"]] 3 (by decide)⟩

/-- The coercion of one tagged value keeps its key. -/
theorem coerceTagged_fst (k v : String) (kv : String × PyVal)
    (h : coerceTagged k v = .ok kv) : kv.1 = k := by
  unfold coerceTagged at h
  split at h
  all_goals try split_ifs at h
  all_goals try split at h
  all_goals first
    | (cases h; rfl)
    | simp at h

/-- `get_kwargs_by_type` keeps the parameter names and their order. -/
theorem get_kwargs_by_type_keys (kvs : Kwargs) :
    ∀ out, get_kwargs_by_type kvs = .ok out →
      out.map Prod.fst = kvs.map Prod.fst := by
  induction kvs with
  | nil =>
    intro out h
    simp only [get_kwargs_by_type] at h
    cases h
    rfl
  | cons p rest ih =>
    intro out h
    obtain ⟨k, v⟩ := p
    simp only [get_kwargs_by_type] at h
    cases hc : coerceTagged k v with
    | error e => rw [hc] at h; exact absurd h (by simp)
    | ok kv =>
      rw [hc] at h
      cases hr : get_kwargs_by_type rest with
      | error e => rw [hr] at h; exact absurd h (by simp)
      | ok tl =>
        rw [hr] at h
        cases h
        simp [coerceTagged_fst k v kv hc, ih tl hr]

/-- A key that is not among a mapping's keys looks up to `none`. -/
theorem lookupKV_eq_none {α : Type} (l : List (String × α)) (k : String)
    (h : k ∉ l.map Prod.fst) : lookupKV l k = none := by
  induction l with
  | nil => rfl
  | cons p rest ih =>
    obtain ⟨k1, v1⟩ := p
    simp only [List.map_cons, List.mem_cons, not_or] at h
    simp only [lookupKV]
    rw [if_neg (fun he => h.1 he.symm)]
    exact ih h.2

/-- After the pop of the reserved key, "debug" is no longer among the keys. -/
theorem debug_not_mem_filter (kvs : Kwargs) :
    "debug" ∉ (kvs.filter (fun p => p.1 != "debug")).map Prod.fst := by
  intro hmem
  simp only [List.mem_map] at hmem
  obtain ⟨p, hp, hfst⟩ := hmem
  rw [List.mem_filter] at hp
  have hne := hp.2
  rw [bne_iff_ne] at hne
  exact hne hfst

/-- C5 counterexample: the debug value "maybe" is neither "true" nor "false",
yet the parse succeeds (debug=false, empty pass-through set) instead of failing
with an error naming the token. -/
theorem C5_debug_maybe_counterexample :
    set_params "debug=maybe" = .ok ⟨false, some []⟩ := rfl

/-- C5 (amended): for every value of the reserved debug key, the debug flag is
set to whether the value lowercases to "true" — case-insensitive "true" yields
debug=true, case-insensitive "false" yields debug=false, and every other value
also silently yields debug=false with no error — and the debug key is always
removed from the pass-through parameter set. -/
theorem C5_debug_key_handling (kvs : Kwargs) (v : String)
    (rest : List (String × PyVal))
    (hv : lookupKV kvs "debug" = some v)
    (hrest : get_kwargs_by_type (kvs.filter (fun p => p.1 != "debug")) = .ok rest) :
    set_params_from_kwargs kvs = .ok ⟨lowerStr v == "true", some rest⟩ ∧
    lookupKV rest "debug" = none := by
  constructor
  · unfold set_params_from_kwargs
    rw [hv, hrest]
  · apply lookupKV_eq_none
    rw [get_kwargs_by_type_keys _ rest hrest]
    exact debug_not_mem_filter kvs

/-- C5 witness: the theorem applied to the mapping parsed from
"debug=TRUE,x=1"; the flag becomes true and the debug key is gone. -/
theorem C5_debug_key_handling_witness :
    (lookupKV [("debug", "TRUE"), ("x", "1")] "debug" = some "TRUE" ∧
     get_kwargs_by_type
       ([("debug", "TRUE"), ("x", "1")].filter (fun p => p.1 != "debug")) =
       .ok [("x", .str "1")]) ∧
    (set_params_from_kwargs [("debug", "TRUE"), ("x", "1")] =
       .ok ⟨lowerStr "TRUE" == "true", some [("x", .str "1")]⟩ ∧
     lookupKV [("x", PyVal.str "1")] "debug" = none) :=
  ⟨⟨rfl, rfl⟩, C5_debug_key_handling [("debug", "TRUE"), ("x", "1")] "TRUE"
    [("x", .str "1")] rfl rfl⟩

/-- A sample environment for the C4 counterexample: one sklearn model with a
three-feature schema whose predict method returns one constant per row. -/
def c4Env : String → Option ModelMeta := fun name =>
  if name = "m1" then
    some ⟨"sklearn", [("f1", "str"), ("f2", "str"), ("f3", "str")], none,
      ⟨[("predict", fun X => .one (X.map (fun _ => "0")))]⟩⟩
  else none

/-- C4 counterexample: with a three-feature schema, a request in which one row's
feature string splits into two values while another's splits into three does
not fail — pandas pads the short row with a missing value, and predict goes on
to produce a response for both rows. -/
theorem C4_ragged_split_counterexample :
    buildFeatureFrame [["a", "b"], ["x", "y", "z"]] 3 =
      .ok [[some "a", some "b", none], [some "x", some "y", some "z"]] ∧
    (predict c4Env
      [⟨"m1", "k1", "a|b", "debug=false"⟩, ⟨"m1", "k2", "x|y|z", "debug=false"⟩]).result =
      .ok [⟨"m1", "k1", "0"⟩, ⟨"m1", "k2", "0"⟩] := ⟨rfl, rfl⟩

/-- C4 (amended): the feature-frame construction fails — with the assertion
error telling the user to check the pipe delimiter and target-column inclusion,
distinct from the general parse errors — exactly when the maximum split count
across the request's rows differs from the feature schema's arity; rows
splitting into fewer values than that maximum are padded with missing values
rather than causing a failure. -/
theorem C4_feature_arity (splitRows : List (List String)) (ncols : Nat)
    (hne : splitRows ≠ []) :
    (buildFeatureFrame splitRows ncols = .error (.assertionError featureArityMsg) ↔
      maxLen splitRows ≠ ncols) ∧
    (∀ e, buildFeatureFrame splitRows ncols = .error e →
      e = .assertionError featureArityMsg) ∧
    (maxLen splitRows = ncols →
      buildFeatureFrame splitRows ncols =
        .ok (splitRows.map (fun r => (List.range ncols).map r.get?))) := by
  have hne' : ¬ (splitRows.isEmpty = true) := by
    simp only [List.isEmpty_iff]
    exact hne
  unfold buildFeatureFrame
  rw [if_neg hne']
  by_cases hm : maxLen splitRows = ncols
  · rw [if_neg (not_not_intro hm)]
    refine ⟨⟨fun h => absurd h (by simp), fun h => absurd hm h⟩, ?_, fun _ => rfl⟩
    intro e he
    exact absurd he (by simp)
  · rw [if_pos hm]
    refine ⟨⟨fun _ => hm, fun _ => rfl⟩, ?_, fun h => absurd h hm⟩
    intro e he
    cases he
    rfl

/-- C4 witness: the theorem applied to one row splitting into two values under a
three-feature schema (a uniform mismatch, which does raise the arity error). -/
theorem C4_feature_arity_witness :
    ([["a", "b"]] : List (List String)) ≠ [] ∧
    ((buildFeatureFrame [["a", "b"]] 3 = .error (.assertionError featureArityMsg) ↔
      maxLen [["a", "b"]] ≠ 3) ∧
     (∀ e, buildFeatureFrame [["a", "b"]] 3 = .error e →
       e = .assertionError featureArityMsg) ∧
     (maxLen [["a", "b"]] = 3 →
       buildFeatureFrame [["a", "b"]] 3 =
         .ok ([["a", "b"]].map (fun r => (List.range 3).map r.get?)))) :=
  ⟨by simp, C4_feature_arity [["a", "b"]] 3 (by simp)⟩

/-- Inserting a rule into a list leaves, for every lift value, the subsequence
of rules carrying that lift intact: the inserted rule lands in front of its own
lift class and every other class is untouched. -/
theorem filter_orderedInsert_lift (a : Rule) (q : ℚ) (l : List Rule) :
    (List.orderedInsert liftGE a l).filter (fun r => r.lift == q) =
      if a.lift = q then a :: l.filter (fun r => r.lift == q)
      else l.filter (fun r => r.lift == q) := by
  induction l with
  | nil =>
    by_cases hq : a.lift = q
    · simp [List.orderedInsert, List.filter, hq]
    · simp [List.orderedInsert, List.filter, hq, beq_eq_false_iff_ne.mpr hq]
  | cons b l ih =>
    simp only [List.orderedInsert]
    by_cases hle : liftGE a b
    · rw [if_pos hle]
      by_cases hq : a.lift = q <;> simp [List.filter_cons, hq]
    · rw [if_neg hle]
      by_cases hq : a.lift = q
      · have hlt : a.lift < b.lift := not_le.mp hle
        have hbq : ¬(b.lift = q) := by
          intro hbq'
          rw [hq, hbq'] at hlt
          exact lt_irrefl q hlt
        simp [List.filter_cons, hq, hbq, ih]
      · simp [List.filter_cons, hq, ih]

/-- The descending stable sort used by `association_rules` preserves, for every
lift value, the emission order of the rules carrying that lift. -/
theorem insertionSort_filter_lift (q : ℚ) (rules : List Rule) :
    (List.insertionSort liftGE rules).filter (fun r => r.lift == q) =
      rules.filter (fun r => r.lift == q) := by
  induction rules with
  | nil => rfl
  | cons a l ih =>
    simp only [List.insertionSort]
    rw [filter_orderedInsert_lift]
    by_cases hq : a.lift = q
    · rw [if_pos hq, ih]
      simp [List.filter_cons, hq]
    · rw [if_neg hq, ih]
      simp [List.filter_cons, hq]

/-- C6: the response rows of `association_rules` are ordered by lift in
descending order, the sort is stable — rules with equal lift keep the mining
algorithm's emission order, stated as: for every lift value, filtering the
sorted list down to that lift yields exactly the same sequence as filtering the
emitted list — and for a non-empty rule list the response is exactly the stable
descending sort, formatted row by row. -/
theorem C6_sorted_by_lift_stable (rules : List Rule) :
    (List.insertionSort liftGE rules).Sorted liftGE ∧
    (∀ q : ℚ, (List.insertionSort liftGE rules).filter (fun r => r.lift == q) =
      rules.filter (fun r => r.lift == q)) ∧
    (rules ≠ [] → association_rules_response rules =
      .ok ((List.insertionSort liftGE rules).map formatRule)) := by
  refine ⟨List.sorted_insertionSort liftGE rules,
    fun q => insertionSort_filter_lift q rules, ?_⟩
  intro hne
  have hlen : ((List.insertionSort liftGE rules).map formatRule).length =
      rules.length := by
    rw [List.length_map, List.length_insertionSort]
  unfold association_rules_response
  rw [if_neg (fun h => hne (List.length_eq_zero.mp (hlen ▸ h)))]

/-- C6 witness: two equal-lift rules keep their emission order in the
response. -/
theorem C6_sorted_by_lift_stable_witness :
    ([⟨["a"], ["b"], 1, 1, 2⟩, ⟨["c"], ["d"], 1, 1, 2⟩] : List Rule) ≠ [] ∧
    association_rules_response [⟨["a"], ["b"], 1, 1, 2⟩, ⟨["c"], ["d"], 1, 1, 2⟩] =
      .ok ((List.insertionSort liftGE
        [⟨["a"], ["b"], 1, 1, 2⟩, ⟨["c"], ["d"], 1, 1, 2⟩]).map formatRule) :=
  ⟨by simp, (C6_sorted_by_lift_stable _).2.2 (by simp)⟩

/-- A key absent from the response index finds no join partner. -/
theorem filter_zip_nil (k : String) : ∀ (ks ys : List String), k ∉ ks →
    (ks.zip ys).filter (fun p => p.1 == k) = []
  | [], _, _ => by simp
  | _ :: _, [], _ => by simp
  | a :: ks, y :: ys, h => by
    simp only [List.zip_cons_cons]
    rw [List.filter_cons_of_neg (by
      simp only [beq_iff_eq]
      exact fun he => h (by rw [← he]; exact List.mem_cons_self a ks))]
    exact filter_zip_nil k ks ys (fun hm => h (List.mem_cons_of_mem a hm))

/-- A response entry whose key matches no request row does not change the
join. -/
theorem joinOnKey_irrelevant_head (rs : List PredictRow) (p : String × String)
    (resp : List (String × String)) (h : ∀ r ∈ rs, r.key ≠ p.1) :
    joinOnKey rs (p :: resp) = joinOnKey rs resp := by
  induction rs with
  | nil => rfl
  | cons r rs ih =>
    simp only [joinOnKey]
    rw [List.filter_cons_of_neg (by
      simp only [beq_iff_eq]
      exact fun he => (h r (List.mem_cons_self r rs)) he.symm)]
    rw [ih (fun r' hr' => h r' (List.mem_cons_of_mem r hr'))]

/-- With pairwise-distinct keys, the pandas index join of the request table with
the positionally built response degenerates to the positional pairing. -/
theorem joinOnKey_zip : ∀ (rows : List PredictRow) (results : List String),
    (rows.map PredictRow.key).Nodup → results.length = rows.length →
    joinOnKey rows ((rows.map PredictRow.key).zip results) = rows.zip results
  | [], _, _, _ => rfl
  | _ :: _, [], _, hlen => by simp at hlen
  | r :: rs, y :: ys, hnd, hlen => by
    simp only [List.map_cons, List.zip_cons_cons, joinOnKey]
    rw [List.filter_cons_of_pos (by simp)]
    have hnotin : r.key ∉ rs.map PredictRow.key := (List.nodup_cons.mp hnd).1
    rw [filter_zip_nil r.key (rs.map PredictRow.key) ys hnotin]
    rw [joinOnKey_irrelevant_head rs (r.key, y) _
      (fun r' hr' he => hnotin (by
        have hm := List.mem_map_of_mem PredictRow.key hr'
        rw [he] at hm
        exact hm))]
    rw [joinOnKey_zip rs ys (List.nodup_cons.mp hnd).2 (by simpa using hlen)]
    simp

/-- C3 counterexample: with a duplicated caller-supplied key, the pandas index
join multiplies rows — a two-row keyed request yields a four-row response, so
the request's row count is not preserved for every keyed call. -/
theorem C3_duplicate_key_counterexample :
    (scriptResponse [⟨"m", "k1", "f"⟩, ⟨"m", "k1", "g"⟩] ["A", "B"]).length = 4 ∧
    ([⟨"m", "k1", "f"⟩, ⟨"m", "k1", "g"⟩] : List PredictRow).length = 2 := ⟨rfl, rfl⟩

/-- C3 (amended): for every keyed call whose caller-supplied keys are pairwise
distinct, each response row carries the result computed for its own request row
— the join is by the key column, so this holds for every order of the request
rows — the returned table's row count and key sequence equal the request's, and
the `n_features` bookkeeping column is dropped from the response columns. -/
theorem C3_keyed_join (rows : List PredictRow) (results : List String)
    (hnd : (rows.map PredictRow.key).Nodup)
    (hlen : results.length = rows.length) :
    scriptResponse rows results =
      (rows.zip results).map (fun p => ⟨p.1.model_name, p.1.key, p.2⟩) ∧
    (scriptResponse rows results).length = rows.length ∧
    (scriptResponse rows results).map ScriptResponseRow.key =
      rows.map PredictRow.key ∧
    "n_features" ∉ scriptResponseColumns := by
  have hjoin : scriptResponse rows results =
      (rows.zip results).map (fun p => ⟨p.1.model_name, p.1.key, p.2⟩) := by
    unfold scriptResponse
    rw [joinOnKey_zip rows results hnd hlen]
  refine ⟨hjoin, ?_, ?_, by decide⟩
  · rw [hjoin, List.length_map, List.length_zip, hlen, min_self]
  · rw [hjoin, List.map_map]
    have hcomp : (ScriptResponseRow.key ∘ fun p : PredictRow × String =>
        (⟨p.1.model_name, p.1.key, p.2⟩ : ScriptResponseRow)) =
        (PredictRow.key ∘ Prod.fst) := rfl
    rw [hcomp, ← List.map_map]
    rw [List.map_fst_zip rows results (le_of_eq hlen.symm)]

/-- C3 witness: the theorem applied to a two-row request whose keys arrive in
non-sorted order. -/
theorem C3_keyed_join_witness :
    ((([⟨"m", "b", "f2"⟩, ⟨"m", "a", "f1"⟩] : List PredictRow).map
        PredictRow.key).Nodup ∧
     (["r2", "r1"] : List String).length =
       ([⟨"m", "b", "f2"⟩, ⟨"m", "a", "f1"⟩] : List PredictRow).length) ∧
    (scriptResponse [⟨"m", "b", "f2"⟩, ⟨"m", "a", "f1"⟩] ["r2", "r1"] =
       (([⟨"m", "b", "f2"⟩, ⟨"m", "a", "f1"⟩] : List PredictRow).zip
         ["r2", "r1"]).map (fun p => ⟨p.1.model_name, p.1.key, p.2⟩) ∧
     (scriptResponse [⟨"m", "b", "f2"⟩, ⟨"m", "a", "f1"⟩] ["r2", "r1"]).length =
       ([⟨"m", "b", "f2"⟩, ⟨"m", "a", "f1"⟩] : List PredictRow).length ∧
     (scriptResponse [⟨"m", "b", "f2"⟩, ⟨"m", "a", "f1"⟩] ["r2", "r1"]).map
         ScriptResponseRow.key =
       ([⟨"m", "b", "f2"⟩, ⟨"m", "a", "f1"⟩] : List PredictRow).map
         PredictRow.key ∧
     "n_features" ∉ scriptResponseColumns) :=
  ⟨⟨by decide, rfl⟩,
   C3_keyed_join [⟨"m", "b", "f2"⟩, ⟨"m", "a", "f1"⟩] ["r2", "r1"] (by decide) rfl⟩

/-- C9: the execution parameters are derived solely from the kwargs cell of the
first request row — two request tables whose first rows agree on that cell
yield identical parameters, whatever every other cell holds — and the table
`_initiate` hands to the rest of the pipeline (model loading, inference and
mining all consume `initiate`'s output, as in `predict` and
`association_rules_call`) has the kwargs column removed and no longer mentions
the `kwargs` header. -/
theorem C9_params_from_first_row_kwargs
    (headers : List String) (rows rows' : List (List String))
    (hh : headers ∈ [["group", "item", "kwargs"],
      ["model_name", "n_features", "kwargs"],
      ["model_name", "key", "n_features", "kwargs"]])
    (hr : rows ≠ []) (hr' : rows' ≠ [])
    (hk : kwargsCell headers rows = kwargsCell headers rows') :
    (∀ res res', initiate headers rows = .ok res →
      initiate headers rows' = .ok res' → res.params = res'.params) ∧
    (∀ res, initiate headers rows = .ok res →
      res.headers = headers.eraseIdx (colIdx headers "kwargs") ∧
      "kwargs" ∉ res.headers ∧
      res.table = dropCol (colIdx headers "kwargs") rows) := by
  constructor
  · intro res res' h1 h2
    unfold initiate at h1 h2
    rw [hk] at h1
    cases hsp : set_params (kwargsCell headers rows') with
    | error e =>
      rw [hsp] at h1
      exact absurd h1 (by simp)
    | ok ps =>
      rw [hsp] at h1 h2
      cases h1
      cases h2
      rfl
  · intro res h1
    unfold initiate at h1
    cases hsp : set_params (kwargsCell headers rows) with
    | error e =>
      rw [hsp] at h1
      exact absurd h1 (by simp)
    | ok ps =>
      rw [hsp] at h1
      cases h1
      refine ⟨rfl, ?_, rfl⟩
      fin_cases hh <;> simp <;> decide

/-- C9 witness: two one-row predict request tables sharing the first row's
kwargs cell but nothing else. -/
theorem C9_params_from_first_row_kwargs_witness :
    ((["model_name", "n_features", "kwargs"] : List String) ∈
       [["group", "item", "kwargs"], ["model_name", "n_features", "kwargs"],
        ["model_name", "key", "n_features", "kwargs"]] ∧
     ([["m1", "a|b", "debug=true"]] : List (List String)) ≠ [] ∧
     ([["m9", "c|d", "debug=true"], ["x", "y", "ignored=1"]] : List (List String)) ≠ [] ∧
     kwargsCell ["model_name", "n_features", "kwargs"] [["m1", "a|b", "debug=true"]] =
       kwargsCell ["model_name", "n_features", "kwargs"]
         [["m9", "c|d", "debug=true"], ["x", "y", "ignored=1"]]) ∧
    ((∀ res res',
        initiate ["model_name", "n_features", "kwargs"] [["m1", "a|b", "debug=true"]] = .ok res →
        initiate ["model_name", "n_features", "kwargs"]
          [["m9", "c|d", "debug=true"], ["x", "y", "ignored=1"]] = .ok res' →
        res.params = res'.params) ∧
     (∀ res,
        initiate ["model_name", "n_features", "kwargs"] [["m1", "a|b", "debug=true"]] = .ok res →
        res.headers = (["model_name", "n_features", "kwargs"] : List String).eraseIdx
          (colIdx ["model_name", "n_features", "kwargs"] "kwargs") ∧
        "kwargs" ∉ res.headers ∧
        res.table = dropCol (colIdx ["model_name", "n_features", "kwargs"] "kwargs")
          [["m1", "a|b", "debug=true"]])) :=
  ⟨⟨by decide, by simp, by simp, rfl⟩,
   C9_params_from_first_row_kwargs ["model_name", "n_features", "kwargs"]
     [["m1", "a|b", "debug=true"]] [["m9", "c|d", "debug=true"], ["x", "y", "ignored=1"]]
     (by decide) (by simp) (by simp) rfl⟩

/-- C10: when the 'return' parameter names a method the loaded model does not
provide, and the stages before the lookup succeed (the parameters parse, the
model loads, the feature strings split and convert, preprocessing passes),
predict fails at the `getattr` lookup with an AttributeError naming the method
— after the model was loaded but before the model is ever invoked, before any
response table is built, and before the table description is sent to the
caller. -/
theorem C10_missing_return_method
    (env : String → Option ModelMeta) (request : List ScriptRequestRow)
    (d : Bool) (passOn : List (String × PyVal)) (fname : String)
    (meta : ModelMeta) (X0 X1 X2 : FeatureMatrix)
    (h1 : set_params ((request.headD ⟨"", "", "", ""⟩).kwargs) = .ok ⟨d, some passOn⟩)
    (h2 : lookupKV passOn "return" = some (.str fname))
    (h3 : get_model env
      (((request.map dropKwargsRow).headD ⟨"", "", ""⟩).model_name) = .ok meta)
    (h4 : buildFeatureFrame ((request.map dropKwargsRow).map
      (fun r => pySplit '|' r.n_features)) meta.features.length = .ok X0)
    (h5 : convert_types X0 (meta.features.map Prod.snd) = .ok X1)
    (h6 : applyPrep meta.preprocessor X1 = .ok X2)
    (h7 : lookupKV meta.model.methods fname = none) :
    predict env request =
      ⟨.error (.attributeError
        ("'model' object has no attribute '" ++ fname ++ "'")), false, false⟩ := by
  unfold predict
  rw [h1]
  simp only [h2, h3, h4, h5, h6, h7, Option.getD]
  rfl

/-- A sample model for the C10 witness: an sklearn model with one feature,
providing only a predict method. -/
def c10Meta : ModelMeta :=
  ⟨"sklearn", [("f1", "str")], none,
    ⟨[("predict", fun X => .one (X.map (fun _ => "0")))]⟩⟩

/-- A sample environment for the C10 witness. -/
def c10Env : String → Option ModelMeta := fun name =>
  if name = "m2" then some c10Meta else none

/-- C10 witness: the theorem applied to a one-row request asking for the
missing method predict_proba as its 'return' parameter. -/
theorem C10_missing_return_method_witness :
    (set_params ((([⟨"m2", "k1", "a", "return=predict_proba"⟩] :
         List ScriptRequestRow).headD ⟨"", "", "", ""⟩).kwargs) =
       .ok ⟨false, some [("return", .str "predict_proba")]⟩ ∧
     lookupKV [("return", PyVal.str "predict_proba")] "return" =
       some (.str "predict_proba") ∧
     get_model c10Env ((([⟨"m2", "k1", "a", "return=predict_proba"⟩] :
         List ScriptRequestRow).map dropKwargsRow).headD ⟨"", "", ""⟩).model_name =
       .ok c10Meta ∧
     buildFeatureFrame ((([⟨"m2", "k1", "a", "return=predict_proba"⟩] :
         List ScriptRequestRow).map dropKwargsRow).map
         (fun r => pySplit '|' r.n_features)) c10Meta.features.length =
       .ok [[some "a"]] ∧
     convert_types [[some "a"]] (c10Meta.features.map Prod.snd) = .ok [[some "a"]] ∧
     applyPrep c10Meta.preprocessor [[some "a"]] = .ok [[some "a"]] ∧
     lookupKV c10Meta.model.methods "predict_proba" = none) ∧
    predict c10Env [⟨"m2", "k1", "a", "return=predict_proba"⟩] =
      ⟨.error (.attributeError "'model' object has no attribute 'predict_proba'"),
       false, false⟩ :=
  ⟨⟨rfl, rfl, rfl, rfl, rfl, rfl, rfl⟩,
   C10_missing_return_method c10Env [⟨"m2", "k1", "a", "return=predict_proba"⟩]
     false [("return", .str "predict_proba")] "predict_proba" c10Meta
     [[some "a"]] [[some "a"]] [[some "a"]] rfl rfl rfl rfl rfl rfl rfl⟩
